import Mathlib

/-!
Shallow embedding of the FoodLink resource-matching core
(`src/data/database.py` together with the data model of
`src/models/schemas.py`), and proofs settling the frozen claims about it.

Modelling conventions:
  * Python floats are modelled as real numbers (`ℝ`); `round(x, 2)` is
    modelled as rounding `x * 100` to the nearest integer and dividing by
    100 (Python breaks ties to even, the model rounds half up; no claim
    here depends on the tie-breaking rule).
  * A Python `Optional[T]` value is `Option T`; Python truthiness of an
    optional string (`None` and `""` are falsy) and of an optional list
    (`None` and `[]` are falsy) is made explicit in `truthyStr` /
    `truthyList`.
  * The Python `dict` of weekly hours is an association list with
    first-match lookup (dict keys are unique, so this is faithful).
  * `datetime.now()` is modelled by an explicit `Instant` argument carrying
    the lowercase day name produced by `now.strftime('%A').lower()` and the
    time of day in microseconds since midnight (`datetime.time` compares
    lexicographically on (hour, minute, second, microsecond), which is
    exactly the order on microsecond counts).
  * `datetime.strptime(s, "%H:%M")` succeeds exactly on strings of the
    form `d{1,2} ":" d{1,2}` whose hour value is ≤ 23 and minute value is
    ≤ 59; `parseTimeHM` reproduces this acceptance condition by structural
    recursion over the characters (ASCII digits; CPython's `\d` also
    accepts non-ASCII decimal digits, a corner no claim touches).
  * `list.sort(key=...)` is a stable ascending sort; `sortByKeyStable`
    is a stable insertion sort, which produces the same list as any other
    stable ascending sort for a total preorder on keys.
  * File IO in `load_resources` is out of the shallow embedding; the
    `except` branches set `self.resources = []`, which is modelled by the
    explicit empty catalog `failedLoadDb`.
-/

/-- Operating hours for a single day (`Hours` in `src/models/schemas.py`).
The Python field names `open` and `close` are Lean keywords and are
rendered `openTime` / `closeTime`. `status` is one of `"open"`,
`"closed"`, `"variable"` in the data model; the code only ever compares it
to `"open"`, so it is modelled as a plain string. -/
structure Hours where
  openTime : Option String := none
  closeTime : Option String := none
  status : String := "closed"

/-- A food resource (`Resource` in `src/models/schemas.py`), including the
two derived fields `distance_miles` and `is_open_now` that are populated
only on search-result copies. -/
structure Resource where
  id : String
  name : String
  type : String
  address : String
  lat : ℝ
  lon : ℝ
  phone : String
  email : Option String := none
  website : Option String := none
  hours : List (String × Hours)
  offerings : List String
  dietary_options : List String
  requirements : String
  accessibility : String
  languages : List String
  notes : String
  target_population : String
  distance_miles : Option ℝ := none
  is_open_now : Option Bool := none

/-- The in-memory catalog (`ResourceDatabase.resources`). -/
structure ResourceDatabase where
  resources : List Resource

/-- A reference instant, as consumed by `is_open_now`: the lowercase
English day name from `now.strftime('%A').lower()` and the time of day in
microseconds since midnight from `now.time()`. -/
structure Instant where
  dayName : String
  tod : Nat

/-- Time of day, in microseconds since midnight, of a parsed "HH:MM" value
(seconds and microseconds are zero, as in `datetime.strptime`). -/
def todOf (h m : Nat) : Nat :=
  ((h * 60 + m) * 60) * 1000000

/-- Python truthiness of an optional string: `None` and `""` are falsy. -/
def truthyStr : Option String → Bool
  | none => false
  | some s => !(s == "")

/-- Python truthiness of an optional list: `None` and `[]` are falsy. -/
def truthyList : Option (List String) → Bool
  | none => false
  | some [] => false
  | some (_ :: _) => true

/-- Longest prefix of decimal digits and the remaining characters. -/
def takeDigits : List Char → List Char × List Char
  | [] => ([], [])
  | c :: cs =>
    if c.isDigit then
      let p := takeDigits cs
      (c :: p.1, p.2)
    else ([], c :: cs)

/-- Numeric value of a list of decimal digits. -/
def digitsToNat (l : List Char) : Nat :=
  l.foldl (fun n c => n * 10 + (c.toNat - 48)) 0

/-- Acceptance condition of `datetime.strptime(s, "%H:%M")`: one or two
digits whose value is at most 23 (the regex `2[0-3]|[0-1]\d|\d`), a colon,
one or two digits whose value is at most 59 (the regex `[0-5]\d|\d`),
and nothing else.  Returns the parsed (hour, minute) pair. -/
def parseTimeHM (s : String) : Option (Nat × Nat) :=
  let p := takeDigits s.toList
  match p.2 with
  | ':' :: rest =>
    let q := takeDigits rest
    if q.2 = [] ∧ 1 ≤ p.1.length ∧ p.1.length ≤ 2 ∧ 1 ≤ q.1.length ∧ q.1.length ≤ 2 ∧
        digitsToNat p.1 ≤ 23 ∧ digitsToNat q.1 ≤ 59 then
      some (digitsToNat p.1, digitsToNat q.1)
    else none
  | _ => none

/-- Lookup of a day name in the weekly-hours mapping
(`day_name not in resource.hours` / `resource.hours[day_name]`). -/
def lookupDay (hs : List (String × Hours)) (day : String) : Option Hours :=
  (hs.find? (fun p => p.1 == day)).map (fun p => p.2)

/-- The availability evaluator `ResourceDatabase.is_open_now`
(`src/data/database.py` lines 84–108): absent day, a status other than
`"open"`, a falsy open/close string, or an unparsable time all yield
`false`; otherwise open-time ≤ current-time ≤ close-time, inclusive. -/
def is_open_now (r : Resource) (now : Instant) : Bool :=
  match lookupDay r.hours now.dayName with
  | none => false
  | some day_hours =>
    if day_hours.status != "open" then false
    else if !(truthyStr day_hours.openTime) || !(truthyStr day_hours.closeTime) then false
    else
      match parseTimeHM (day_hours.openTime.getD ""), parseTimeHM (day_hours.closeTime.getD "") with
      | some ot, some ct => decide (todOf ot.1 ot.2 ≤ now.tod ∧ now.tod ≤ todOf ct.1 ct.2)
      | _, _ => false

/-- The type filter of `search_resources` (`if resource_types and
resource.type not in resource_types: continue`): `true` means the
resource is excluded. -/
def typeExcludes (resource_types : Option (List String)) (r : Resource) : Bool :=
  truthyList resource_types && !((resource_types.getD []).contains r.type)

/-- The any-of dietary match of `search_resources` (`any(need.lower() in
[opt.lower() for opt in resource.dietary_options] for need in
dietary_needs)`). -/
def has_dietary_match (needs : List String) (r : Resource) : Bool :=
  needs.any (fun need => (r.dietary_options.map String.toLower).contains need.toLower)

/-- The dietary filter of `search_resources` (`if dietary_needs: ... if
not has_dietary_match: continue`): `true` means the resource is
excluded. -/
def dietaryExcludes (dietary_needs : Option (List String)) (r : Resource) : Bool :=
  truthyList dietary_needs && !(has_dietary_match (dietary_needs.getD []) r)

/-- The keyword arguments of `ResourceDatabase.search_resources`, with the
Python defaults. -/
structure SearchArgs where
  lat : Option ℝ := none
  lon : Option ℝ := none
  max_distance_miles : ℝ := 5
  dietary_needs : Option (List String) := none
  open_now : Bool := false
  resource_types : Option (List String) := none
  limit : Int := 10

/-- `ResourceDatabase.get_all_resources`. -/
def get_all_resources (db : ResourceDatabase) : List Resource :=
  db.resources

/-- `ResourceDatabase.get_resource_by_id`: first resource with the given
id, or `none`. -/
def get_resource_by_id (db : ResourceDatabase) (resource_id : String) : Option Resource :=
  db.resources.find? (fun r => r.id == resource_id)

/-- `ResourceDatabase.get_resources_by_target_population`. -/
def get_resources_by_target_population (db : ResourceDatabase) (population : String) : List Resource :=
  db.resources.filter (fun r => r.target_population == population || r.target_population == "general")

/-- A catalog whose load failed (`load_resources` sets `self.resources =
[]` in both `except` branches, `src/data/database.py` lines 42–47). -/
def failedLoadDb : ResourceDatabase := ⟨[]⟩

/-- `math.radians`: degrees to radians. -/
noncomputable def radians (x : ℝ) : ℝ :=
  x * Real.pi / 180

/-- `math.atan2 y x`, the two-argument arctangent with the C library's
quadrant conventions (`atan2 0 0 = 0`). -/
noncomputable def atan2 (y x : ℝ) : ℝ :=
  if 0 < x then Real.arctan (y / x)
  else if x < 0 then
    (if 0 ≤ y then Real.arctan (y / x) + Real.pi else Real.arctan (y / x) - Real.pi)
  else
    (if 0 < y then Real.pi / 2 else if y < 0 then -(Real.pi / 2) else 0)

/-- `round(x, 2)`: round to two decimal digits. -/
noncomputable def round2 (x : ℝ) : ℝ :=
  ((round (x * 100) : ℤ) : ℝ) / 100

/-- The local `a` of `ResourceDatabase.calculate_distance`
(`src/data/database.py` lines 70–79): the haversine intermediate
`sin²(Δlat/2) + cos(lat1)·cos(lat2)·sin²(Δlon/2)`. -/
noncomputable def havA (lat1 lon1 lat2 lon2 : ℝ) : ℝ :=
  Real.sin (radians (lat2 - lat1) / 2) ^ 2 +
    Real.cos (radians lat1) * Real.cos (radians lat2) * Real.sin (radians (lon2 - lon1) / 2) ^ 2

/-- `ResourceDatabase.calculate_distance` (`src/data/database.py` lines
61–82): haversine distance in miles with Earth radius 3959.0, rounded to
two decimals. -/
noncomputable def calculate_distance (lat1 lon1 lat2 lon2 : ℝ) : ℝ :=
  round2 (3959.0 *
    (2 * atan2 (Real.sqrt (havA lat1 lon1 lat2 lon2)) (Real.sqrt (1 - havA lat1 lon1 lat2 lon2))))

/-- The loop body of `search_resources` (`src/data/database.py` lines
141–170) applied to one catalog entry: `none` when a filter excludes the
resource, otherwise the request-local copy with the derived fields
populated. -/
noncomputable def processResource (now : Instant) (args : SearchArgs) (r : Resource) : Option Resource :=
  if args.open_now && !(is_open_now r now) then none
  else if typeExcludes args.resource_types r then none
  else if dietaryExcludes args.dietary_needs r then none
  else
    match args.lat, args.lon with
    | some la, some lo =>
      let distance := calculate_distance la lo r.lat r.lon
      if distance > args.max_distance_miles then none
      else some { r with distance_miles := some distance, is_open_now := some (is_open_now r now) }
    | _, _ => some { r with distance_miles := none, is_open_now := some (is_open_now r now) }

/-- The sort key `lambda r: r.distance_miles if r.distance_miles else
float('inf')` of `search_resources` line 174: `None` is falsy, and so is
the float `0.0`, so both map to infinity (`⊤`). -/
noncomputable def sortKey (r : Resource) : WithTop ℝ :=
  match r.distance_miles with
  | none => ⊤
  | some d => if d = 0 then ⊤ else (d : WithTop ℝ)

/-- Stable insertion of a resource into a list ascending by `sortKey`: the
inserted element goes before the first element with a key not below its
own. -/
noncomputable def insertByKey (r : Resource) : List Resource → List Resource
  | [] => [r]
  | x :: xs => if sortKey r ≤ sortKey x then r :: x :: xs else x :: insertByKey r xs

/-- Stable ascending sort by `sortKey`, modelling
`results.sort(key=lambda r: ...)` on line 174: CPython's sort is stable
and ascending, and a stable ascending sort by a total preorder on keys is
unique, so stable insertion sort produces the identical list. -/
noncomputable def sortByKeyStable (l : List Resource) : List Resource :=
  l.foldr insertByKey []

/-- The list `results` of `search_resources` after the scan loop
(`src/data/database.py` lines 139–170): the surviving, decorated copies in
catalog order. -/
noncomputable def filteredResults (db : ResourceDatabase) (now : Instant) (args : SearchArgs) : List Resource :=
  db.resources.filterMap (processResource now args)

/-- The list `results` of `search_resources` just before the final
truncation (`src/data/database.py` line 176): sorted by the distance key
when both coordinates of the query point were supplied
(`if lat is not None and lon is not None`, line 173), untouched
otherwise. -/
noncomputable def preTruncation (db : ResourceDatabase) (now : Instant) (args : SearchArgs) : List Resource :=
  if args.lat.isSome && args.lon.isSome then sortByKeyStable (filteredResults db now args)
  else filteredResults db now args

/-- `ResourceDatabase.search_resources` (`src/data/database.py` lines
110–176): linear scan with the four filters, decoration of survivors, the
conditional distance sort, and the final truncation `results[:limit]`
with Python slice semantics (a nonnegative `limit` keeps the first
`limit` entries; a negative `limit` drops `-limit` entries from the
end). -/
noncomputable def search_resources (db : ResourceDatabase) (now : Instant) (args : SearchArgs) : List Resource :=
  if 0 ≤ args.limit then (preTruncation db now args).take args.limit.toNat
  else (preTruncation db now args).take ((preTruncation db now args).length - (-args.limit).toNat)

/-- Negating both coordinate differences leaves the squared half-angle
sine unchanged. -/
theorem sin_radians_sub_sq_comm (x y : ℝ) :
    Real.sin (radians (x - y) / 2) ^ 2 = Real.sin (radians (y - x) / 2) ^ 2 := by
  have h : radians (x - y) / 2 = -(radians (y - x) / 2) := by
    unfold radians; ring
  rw [h, Real.sin_neg]; ring

/-- The haversine intermediate is symmetric in the two points. -/
theorem havA_symm (lat1 lon1 lat2 lon2 : ℝ) :
    havA lat1 lon1 lat2 lon2 = havA lat2 lon2 lat1 lon1 := by
  unfold havA
  rw [sin_radians_sub_sq_comm lat2 lat1, sin_radians_sub_sq_comm lon2 lon1]
  ring

/-- The haversine intermediate vanishes on identical points. -/
theorem havA_self (lat lon : ℝ) : havA lat lon lat lon = 0 := by
  unfold havA radians
  simp

/-- `calculate_distance` of a point to itself is zero. -/
theorem calculate_distance_self (lat lon : ℝ) : calculate_distance lat lon lat lon = 0 := by
  unfold calculate_distance
  rw [havA_self]
  rw [Real.sqrt_zero, sub_zero, Real.sqrt_one]
  unfold atan2
  rw [if_pos one_pos, zero_div, Real.arctan_zero]
  unfold round2
  norm_num

/-- `atan2` of two nonnegative arguments is nonnegative. -/
theorem atan2_nonneg {y x : ℝ} (hy : 0 ≤ y) (hx : 0 ≤ x) : 0 ≤ atan2 y x := by
  unfold atan2
  split_ifs with h1 h2 h3 h4
  · have : 0 ≤ y / x := div_nonneg hy (le_of_lt h1)
    calc (0:ℝ) = Real.arctan 0 := Real.arctan_zero.symm
    _ ≤ Real.arctan (y / x) := Real.arctan_strictMono.monotone this
  all_goals linarith [Real.pi_pos]

/-- `round2` of a nonnegative real is nonnegative. -/
theorem round2_nonneg {x : ℝ} (hx : 0 ≤ x) : 0 ≤ round2 x := by
  unfold round2
  have h : (0:ℤ) ≤ round (x * 100) := by
    rw [round_eq, Int.le_floor]
    push_cast
    linarith
  have h2 : (0:ℝ) ≤ ((round (x * 100) : ℤ) : ℝ) := by exact_mod_cast h
  positivity

/-- The haversine intermediate at latitude 0 for points 90 degrees of
longitude apart is 1/2. -/
theorem havA_zero_ninety : havA 0 0 0 90 = 1 / 2 := by
  unfold havA radians
  rw [show ((0:ℝ) - 0) * Real.pi / 180 / 2 = 0 by ring,
    show ((0:ℝ)) * Real.pi / 180 = 0 by ring,
    show ((90:ℝ) - 0) * Real.pi / 180 / 2 = Real.pi / 4 by ring,
    Real.sin_zero, Real.cos_zero, Real.sin_pi_div_four]
  rw [div_pow, Real.sq_sqrt (by norm_num : (0:ℝ) ≤ 2)]
  norm_num

/-- Concrete evaluation of the haversine distance between (0, 0) and
(0, 90): a quarter of the equator, 6218.78 miles after rounding. -/
theorem calculate_distance_zero_ninety : calculate_distance 0 0 0 90 = 6218.78 := by
  unfold calculate_distance
  rw [havA_zero_ninety, show (1:ℝ) - 1 / 2 = 1 / 2 by norm_num]
  have hs : 0 < Real.sqrt (1 / 2) := Real.sqrt_pos.mpr (by norm_num)
  unfold atan2
  rw [if_pos hs, div_self (ne_of_gt hs), Real.arctan_one]
  unfold round2
  rw [show (3959.0:ℝ) * (2 * (Real.pi / 4)) * 100 = 197950 * Real.pi by ring]
  have hround : round ((197950:ℝ) * Real.pi) = 621878 := by
    rw [round_eq]
    rw [Int.floor_eq_iff]
    have hlo := Real.pi_gt_d6
    have hhi := Real.pi_lt_d6
    constructor
    · push_cast; nlinarith
    · push_cast; nlinarith
  rw [hround]
  norm_num

/-- Membership in a stable key-insertion is membership in the inserted
element or the underlying list. -/
theorem mem_insertByKey {e r : Resource} : ∀ {l : List Resource},
    e ∈ insertByKey r l ↔ e = r ∨ e ∈ l := by
  intro l
  induction l with
  | nil => simp [insertByKey]
  | cons x xs ih =>
    unfold insertByKey
    split_ifs with h
    · simp [List.mem_cons]
    · simp [List.mem_cons, ih]
      tauto

/-- The stable sort permutes, hence preserves membership. -/
theorem mem_sortByKeyStable {e : Resource} : ∀ {l : List Resource},
    e ∈ sortByKeyStable l ↔ e ∈ l := by
  intro l
  induction l with
  | nil => simp [sortByKeyStable]
  | cons x xs ih =>
    show e ∈ insertByKey x (sortByKeyStable xs) ↔ e ∈ x :: xs
    rw [mem_insertByKey, ih, List.mem_cons]

/-- Every search result is the image of some catalog entry under the loop
body. -/
theorem search_mem_processed {db : ResourceDatabase} {now : Instant} {args : SearchArgs}
    {e : Resource} (h : e ∈ search_resources db now args) :
    ∃ r ∈ db.resources, processResource now args r = some e := by
  have hpre : e ∈ preTruncation db now args := by
    unfold search_resources at h
    split_ifs at h with hl
    · exact List.take_subset _ _ h
    · exact List.take_subset _ _ h
  have hfil : e ∈ filteredResults db now args := by
    unfold preTruncation at hpre
    split_ifs at hpre with hc
    · exact mem_sortByKeyStable.mp hpre
    · exact hpre
  unfold filteredResults at hfil
  exact List.mem_filterMap.mp hfil

/-- Shape of a surviving loop-body result: a copy of the catalog entry
whose only changed fields are the two derived ones, with `is_open_now`
always computed and `distance_miles` present exactly when the query point
is complete. -/
theorem processResource_some_shape {now : Instant} {args : SearchArgs} {r e : Resource}
    (h : processResource now args r = some e) :
    e = { r with distance_miles := e.distance_miles, is_open_now := some (is_open_now r now) } ∧
    (∀ la lo, args.lat = some la → args.lon = some lo →
      e.distance_miles = some (calculate_distance la lo r.lat r.lon)) ∧
    ((args.lat = none ∨ args.lon = none) → e.distance_miles = none) := by
  unfold processResource at h
  split_ifs at h
  rcases hla : args.lat with _ | la <;> rcases hlo : args.lon with _ | lo <;>
      rw [hla, hlo] at h
  · have he := Option.some.inj h
    subst he
    exact ⟨rfl, fun la lo h1 _ => Option.noConfusion h1, fun _ => rfl⟩
  · have he := Option.some.inj h
    subst he
    exact ⟨rfl, fun la' lo' h1 _ => Option.noConfusion h1, fun _ => rfl⟩
  · have he := Option.some.inj h
    subst he
    exact ⟨rfl, fun la' lo' _ h2 => Option.noConfusion h2, fun _ => rfl⟩
  · have h' : (if calculate_distance la lo r.lat r.lon > args.max_distance_miles then none
        else some
          { r with
            distance_miles := some (calculate_distance la lo r.lat r.lon),
            is_open_now := some (is_open_now r now) }) = some e := h
    split_ifs at h'
    have he := Option.some.inj h'
    subst he
    refine ⟨rfl, ?_, ?_⟩
    · intro la' lo' h1 h2
      cases Option.some.inj h1
      cases Option.some.inj h2
      rfl
    · intro hd
      rcases hd with hd | hd
      · exact Option.noConfusion hd
      · exact Option.noConfusion hd

/-- The loop body keeps a resource exactly when no filter excludes it: the
open-now guard, the type guard and the dietary guard are all false, and —
only when both coordinates of the query point are present — the computed
distance is at most `max_distance_miles` (the code excludes on
`distance > max_distance_miles`, so the boundary is inclusive). -/
theorem processResource_isSome_iff (now : Instant) (args : SearchArgs) (r : Resource) :
    (processResource now args r).isSome = true ↔
      ((args.open_now && !(is_open_now r now)) = false ∧
       typeExcludes args.resource_types r = false ∧
       dietaryExcludes args.dietary_needs r = false ∧
       (∀ la lo, args.lat = some la → args.lon = some lo →
         calculate_distance la lo r.lat r.lon ≤ args.max_distance_miles)) := by
  unfold processResource
  split_ifs with h1 h2 h3
  · simp [h1]
  · simp [h2]
  · simp [h3]
  · rw [Bool.not_eq_true] at h1 h2 h3
    rcases hla : args.lat with _ | la <;> rcases hlo : args.lon with _ | lo
    · simp [h1, h2, h3]
    · simp [h1, h2, h3]
    · simp [h1, h2, h3]
    · show (if calculate_distance la lo r.lat r.lon > args.max_distance_miles then (none : Option Resource)
          else some
            { r with
              distance_miles := some (calculate_distance la lo r.lat r.lon),
              is_open_now := some (is_open_now r now) }).isSome = true ↔ _
      split_ifs with hd
      · simp only [Option.isSome_none, Bool.false_eq_true, false_iff]
        rintro ⟨-, -, -, hall⟩
        exact absurd (hall la lo rfl rfl) (not_le.mpr hd)
      · simp only [Option.isSome_some, true_iff]
        refine ⟨h1, h2, h3, ?_⟩
        intro la' lo' e1 e2
        cases Option.some.inj e1
        cases Option.some.inj e2
        exact not_lt.mp hd

/-- The empty string never parses as an "HH:MM" time. -/
theorem parseTimeHM_empty : parseTimeHM "" = none := rfl

/-- Specification-side openness predicate, following the spec's §4.2
algorithm word for word: the instant's day name is a key of the schedule,
that day's status is `"open"`, both time strings are present and parse as
"HH:MM" 24-hour times, and open-time ≤ current-time ≤ close-time,
inclusive at both ends. -/
def isOpenSpec (r : Resource) (now : Instant) : Prop :=
  ∃ dh os cs oh om ch cm,
    lookupDay r.hours now.dayName = some dh ∧
    dh.status = "open" ∧
    dh.openTime = some os ∧ dh.closeTime = some cs ∧
    parseTimeHM os = some (oh, om) ∧ parseTimeHM cs = some (ch, cm) ∧
    todOf oh om ≤ now.tod ∧ now.tod ≤ todOf ch cm

/-- The availability evaluator agrees with the spec-side predicate on
every schedule and every instant. -/
theorem is_open_now_iff_isOpenSpec (r : Resource) (now : Instant) :
    is_open_now r now = true ↔ isOpenSpec r now := by
  unfold is_open_now isOpenSpec
  cases hd : lookupDay r.hours now.dayName with
  | none => simp
  | some dh =>
    by_cases hst : dh.status = "open"
    · cases ho : dh.openTime with
      | none => simp [hst, ho, truthyStr]
      | some os =>
        cases hc : dh.closeTime with
        | none => simp [hst, ho, hc, truthyStr]
        | some cs =>
          by_cases hos : os = ""
          · subst hos
            simp [hst, ho, hc, truthyStr, parseTimeHM_empty]
          · by_cases hcs : cs = ""
            · subst hcs
              simp [hst, ho, hc, truthyStr, parseTimeHM_empty]
            · cases hpo : parseTimeHM os with
              | none => simp [hst, ho, hc, truthyStr, hos, hcs, hpo]
              | some ot =>
                cases hpc : parseTimeHM cs with
                | none => simp [hst, ho, hc, truthyStr, hos, hcs, hpo, hpc]
                | some ct =>
                  obtain ⟨oh, om⟩ := ot
                  obtain ⟨ch, cm⟩ := ct
                  simp [hst, ho, hc, truthyStr, hos, hcs, hpo, hpc]
                  constructor
                  · rintro ⟨h1, h2⟩
                    exact ⟨oh, om, ⟨rfl, rfl⟩, ch, cm, ⟨rfl, rfl⟩, h1, h2⟩
                  · rintro ⟨x, x1, ⟨rfl, rfl⟩, x2, x3, ⟨rfl, rfl⟩, h1, h2⟩
                    exact ⟨h1, h2⟩
    · simp [hst]

/-- C3: the availability evaluator reports open iff the instant's day name
is a key of the schedule, that day's status is `"open"`, both time strings
are present and parse as "HH:MM" 24-hour times, and open-time ≤
current-time ≤ close-time inclusive at both ends; in particular a day with
status `"closed"` or `"variable"` is never open, and an entry whose open
time is after its close time is never satisfied.  (The evaluator is a
total function of the schedule and the instant, so no input raises.) -/
theorem C3_is_open_now_characterization :
    (∀ (r : Resource) (now : Instant), is_open_now r now = true ↔ isOpenSpec r now) ∧
    (∀ (r : Resource) (now : Instant) (dh : Hours),
      lookupDay r.hours now.dayName = some dh →
      (dh.status = "closed" ∨ dh.status = "variable") →
      is_open_now r now = false) ∧
    (∀ (r : Resource) (now : Instant) (dh : Hours) (os cs : String) (oh om ch cm : Nat),
      lookupDay r.hours now.dayName = some dh →
      dh.openTime = some os → dh.closeTime = some cs →
      parseTimeHM os = some (oh, om) → parseTimeHM cs = some (ch, cm) →
      todOf ch cm < todOf oh om →
      is_open_now r now = false) := by
  refine ⟨is_open_now_iff_isOpenSpec, ?_, ?_⟩
  · intro r now dh hd hs
    rcases hs with h | h <;> simp [is_open_now, hd, h]
  · intro r now dh os cs oh om ch cm hd ho hc hpo hpc hlt
    by_contra hne
    rw [Bool.not_eq_false] at hne
    obtain ⟨dh', os', cs', oh', om', ch', cm', hd', hst', ho', hc', hpo', hpc', h1, h2⟩ :=
      (is_open_now_iff_isOpenSpec r now).mp hne
    rw [hd] at hd'
    cases Option.some.inj hd'
    rw [ho] at ho'
    cases Option.some.inj ho'
    rw [hc] at hc'
    cases Option.some.inj hc'
    rw [hpo] at hpo'
    injection Option.some.inj hpo' with e1 e2
    subst e1
    subst e2
    rw [hpc] at hpc'
    injection Option.some.inj hpc' with e3 e4
    subst e3
    subst e4
    omega

/-- C7: the distance calculator is symmetric in its two points, and the
distance from any point to itself is exactly 0.00. -/
theorem C7_distance_symm_and_self :
    (∀ lat1 lon1 lat2 lon2 : ℝ,
      calculate_distance lat1 lon1 lat2 lon2 = calculate_distance lat2 lon2 lat1 lon1) ∧
    (∀ lat lon : ℝ, calculate_distance lat lon lat lon = 0) := by
  constructor
  · intro a b c d
    unfold calculate_distance
    rw [havA_symm]
  · exact calculate_distance_self

/-- C10: the distance calculator returns a nonnegative value on every pair
of input points, with no restriction to the conventional coordinate
ranges. -/
theorem C10_distance_nonneg :
    ∀ lat1 lon1 lat2 lon2 : ℝ, 0 ≤ calculate_distance lat1 lon1 lat2 lon2 := by
  intro a b c d
  unfold calculate_distance
  apply round2_nonneg
  have h := atan2_nonneg (Real.sqrt_nonneg (havA a b c d)) (Real.sqrt_nonneg (1 - havA a b c d))
  exact mul_nonneg (by norm_num) (mul_nonneg (by norm_num) h)

/-- C8: after a failed load the catalog is empty, every search and
get-all call returns the empty list, and every lookup-by-id returns the
explicit not-found value `none`; all three are total functions, so none
raises. -/
theorem C8_failed_load_degrades :
    ∀ (now : Instant) (args : SearchArgs) (rid : String),
      search_resources failedLoadDb now args = [] ∧
      get_all_resources failedLoadDb = [] ∧
      get_resource_by_id failedLoadDb rid = none := by
  intro now args rid
  refine ⟨?_, rfl, rfl⟩
  unfold search_resources preTruncation filteredResults failedLoadDb
  simp [sortByKeyStable]

/-- C5: with a non-empty needs list the dietary filter retains a resource
iff some requested need equals, case-insensitively, some declared dietary
option (any-of); with an absent or empty needs list it excludes nothing;
and whenever the dietary filter excludes, the loop body drops the
resource. -/
theorem C5_dietary_any_of :
    (∀ (needs : List String) (r : Resource), needs ≠ [] →
      (dietaryExcludes (some needs) r = false ↔
        ∃ need ∈ needs, need.toLower ∈ r.dietary_options.map String.toLower)) ∧
    (∀ r : Resource, dietaryExcludes none r = false ∧ dietaryExcludes (some []) r = false) ∧
    (∀ (now : Instant) (args : SearchArgs) (r : Resource),
      dietaryExcludes args.dietary_needs r = true → processResource now args r = none) := by
  refine ⟨?_, ?_, ?_⟩
  · intro needs r hne
    cases needs with
    | nil => exact absurd rfl hne
    | cons n ns =>
      simp [dietaryExcludes, truthyList, has_dietary_match, List.any_eq_true]
      constructor
      · intro himp
        by_cases hA : ∃ a ∈ r.dietary_options, a.toLower = n.toLower
        · exact Or.inl hA
        · refine Or.inr (himp ?_)
          intro x hx hxl
          exact hA ⟨x, hx, hxl⟩
      · intro hor hnotA
        rcases hor with hA | hB
        · obtain ⟨a, ha, hal⟩ := hA
          exact absurd hal (hnotA a ha)
        · exact hB
  · intro r
    exact ⟨rfl, rfl⟩
  · intro now args r hex
    unfold processResource
    by_cases hg1 : (args.open_now && !(is_open_now r now)) = true
    · rw [if_pos hg1]
    · rw [if_neg hg1]
      by_cases hg2 : typeExcludes args.resource_types r = true
      · rw [if_pos hg2]
      · rw [if_neg hg2, if_pos hex]

/-- C6: with a complete query point and the earlier filters passing, the
loop body keeps a resource iff its computed (rounded) distance is at most
`max_distance_miles` — so a distance exactly equal to the threshold is
included and a larger one excluded; with an incomplete query point the
distance plays no role and every surviving copy has no distance value. -/
theorem C6_distance_filter_boundary :
    (∀ (now : Instant) (args : SearchArgs) (r : Resource) (la lo : ℝ),
      args.lat = some la → args.lon = some lo →
      (args.open_now && !(is_open_now r now)) = false →
      typeExcludes args.resource_types r = false →
      dietaryExcludes args.dietary_needs r = false →
      ((processResource now args r).isSome = true ↔
        calculate_distance la lo r.lat r.lon ≤ args.max_distance_miles)) ∧
    (∀ (now : Instant) (args : SearchArgs) (r : Resource),
      args.lat = none ∨ args.lon = none →
      ((processResource now args r).isSome = true ↔
        ((args.open_now && !(is_open_now r now)) = false ∧
         typeExcludes args.resource_types r = false ∧
         dietaryExcludes args.dietary_needs r = false)) ∧
      (∀ e, processResource now args r = some e → e.distance_miles = none)) := by
  constructor
  · intro now args r la lo hla hlo h1 h2 h3
    rw [processResource_isSome_iff]
    constructor
    · rintro ⟨-, -, -, hall⟩
      exact hall la lo hla hlo
    · intro hle
      refine ⟨h1, h2, h3, ?_⟩
      intro la' lo' e1 e2
      rw [hla] at e1
      rw [hlo] at e2
      cases Option.some.inj e1
      cases Option.some.inj e2
      exact hle
  · intro now args r hnone
    constructor
    · rw [processResource_isSome_iff]
      constructor
      · rintro ⟨a, b, c, -⟩
        exact ⟨a, b, c⟩
      · rintro ⟨a, b, c⟩
        refine ⟨a, b, c, ?_⟩
        intro la lo e1 e2
        rcases hnone with h | h
        · rw [h] at e1
          exact Option.noConfusion e1
        · rw [h] at e2
          exact Option.noConfusion e2
    · intro e he
      exact (processResource_some_shape he).2.2 hnone

/-- C4: every entry returned by a search is a copy of some stored catalog
record whose only changed fields are the derived ones — `is_open_now` is
always computed and attached, and `distance_miles` is present exactly when
the query point is complete. The embedding is a pure function of the
catalog, so the stored records themselves are untouched by construction
(the Python code mutates only the `model_copy()`, never the shared
entry). -/
theorem C4_results_are_decorated_copies :
    ∀ (db : ResourceDatabase) (now : Instant) (args : SearchArgs) (e : Resource),
      e ∈ search_resources db now args →
      ∃ r, r ∈ db.resources ∧
        e = { r with distance_miles := e.distance_miles, is_open_now := some (is_open_now r now) } ∧
        e.is_open_now = some (is_open_now r now) ∧
        (∀ la lo, args.lat = some la → args.lon = some lo →
          e.distance_miles = some (calculate_distance la lo r.lat r.lon)) ∧
        ((args.lat = none ∨ args.lon = none) → e.distance_miles = none) := by
  intro db now args e he
  obtain ⟨r, hr, hp⟩ := search_mem_processed he
  obtain ⟨h1, h2, h3⟩ := processResource_some_shape hp
  refine ⟨r, hr, h1, ?_, h2, h3⟩
  rw [h1]

/-- C2 (amended): truncation follows Python slice semantics. `limit = 0`
yields the empty list; a positive `limit` yields exactly the first
`limit` entries of the filtered-and-sorted list, with no upper ceiling; a
negative `limit` drops the last `-limit` entries, which is empty only
when `-limit` is at least the number of surviving entries. -/
theorem C2_limit_truncation :
    ∀ (db : ResourceDatabase) (now : Instant) (args : SearchArgs),
      (args.limit = 0 → search_resources db now args = []) ∧
      (0 < args.limit →
        search_resources db now args = (preTruncation db now args).take args.limit.toNat) ∧
      (args.limit < 0 →
        search_resources db now args =
          (preTruncation db now args).take
            ((preTruncation db now args).length - (-args.limit).toNat)) := by
  intro db now args
  refine ⟨?_, ?_, ?_⟩
  · intro h0
    unfold search_resources
    rw [if_pos (le_of_eq h0.symm), h0]
    simp
  · intro hpos
    unfold search_resources
    rw [if_pos (le_of_lt hpos)]
  · intro hneg
    unfold search_resources
    rw [if_neg (not_le.mpr hneg)]

/-- C9: a search call in which exactly one of `lat` and `lon` is supplied
behaves exactly like a search with no query point and otherwise identical
arguments: same result list (catalog order, no distance sort, nothing
excluded by distance), and every returned entry has no distance value. -/
theorem C9_partial_query_point :
    ∀ (db : ResourceDatabase) (now : Instant) (args args0 : SearchArgs),
      ((args.lat.isSome = true ∧ args.lon = none) ∨ (args.lat = none ∧ args.lon.isSome = true)) →
      args0.lat = none → args0.lon = none →
      args0.max_distance_miles = args.max_distance_miles →
      args0.dietary_needs = args.dietary_needs →
      args0.open_now = args.open_now →
      args0.resource_types = args.resource_types →
      args0.limit = args.limit →
      search_resources db now args = search_resources db now args0 ∧
      (∀ e ∈ search_resources db now args, e.distance_miles = none) := by
  intro db now args args0 hone h1 h2 h3 h4 h5 h6 h7
  have hdisj : args.lat = none ∨ args.lon = none := by
    rcases hone with ⟨-, h⟩ | ⟨h, -⟩
    · exact Or.inr h
    · exact Or.inl h
  constructor
  · obtain ⟨alat, alon, amx, adn, aon, art, ali⟩ := args
    obtain ⟨blat, blon, bmx, bdn, bon, brt, bli⟩ := args0
    subst h1
    subst h2
    subst h3
    subst h4
    subst h5
    subst h6
    subst h7
    have hproc : ∀ r, processResource now ⟨alat, alon, bmx, bdn, bon, brt, bli⟩ r =
        processResource now ⟨none, none, bmx, bdn, bon, brt, bli⟩ r := by
      intro r
      unfold processResource
      rcases hdisj with hl | hl <;> subst hl
      · cases alon <;> rfl
      · cases alat <;> rfl
    have hfun : processResource now ⟨alat, alon, bmx, bdn, bon, brt, bli⟩ =
        processResource now ⟨none, none, bmx, bdn, bon, brt, bli⟩ := funext hproc
    unfold search_resources preTruncation filteredResults
    rw [hfun]
    rcases hdisj with hl | hl <;> subst hl
    · simp
    · simp
  · intro e he
    obtain ⟨r, -, hr⟩ := search_mem_processed he
    exact (processResource_some_shape hr).2.2 hdisj

/-- A concrete resource at the origin with an empty weekly schedule, used
as the template for the concrete test catalogs below. -/
def baseResource : Resource where
  id := "base"
  name := "Pantry"
  type := "food_pantry"
  address := "1 A St"
  lat := 0
  lon := 0
  phone := "555-0100"
  hours := []
  offerings := ["groceries"]
  dietary_options := []
  requirements := "none"
  accessibility := "street level"
  languages := ["en"]
  notes := ""
  target_population := "general"

/-- A concrete reference instant: Monday 10:00:00.000000. -/
def wnow : Instant := ⟨"monday", todOf 10 0⟩

/-- Resource at the query point itself (distance 0.00). -/
def rA : Resource := { baseResource with id := "rA" }

/-- Resource a quarter of the equator away (distance 6218.78). -/
def rB : Resource := { baseResource with id := "rB", lon := 90 }

/-- Two-resource catalog for the sort evaluation. -/
def dbC1 : ResourceDatabase := ⟨[rA, rB]⟩

/-- Search arguments with a complete query point at the origin and a
threshold large enough to keep both resources. -/
def argsC1 : SearchArgs := { lat := some 0, lon := some 0, max_distance_miles := 10000 }

/-- Decorated copy of `rA` produced by the loop body under `argsC1`. -/
def rAdec : Resource := { rA with distance_miles := some 0, is_open_now := some false }

/-- Decorated copy of `rB` produced by the loop body under `argsC1`. -/
def rBdec : Resource := { rB with distance_miles := some 6218.78, is_open_now := some false }

/-- C1, evaluated at a concrete failing input: with a query point supplied
and both resources surviving, the resource at distance 0.00 is sorted to
the END (its sort key `r.distance_miles if r.distance_miles else
float('inf')` treats the falsy float `0.0` as missing and maps it to
infinity), so the returned distance column is [6218.78, 0] — not
ascending as the claim and the function's own docstring ("sorted by
distance") require. -/
theorem C1_zero_distance_sorted_last :
    (search_resources dbC1 wnow argsC1).map Resource.distance_miles =
      [some (6218.78 : ℝ), some (0 : ℝ)] ∧
    ¬ ((6218.78 : ℝ) ≤ (0 : ℝ)) := by
  constructor
  · have hA : processResource wnow argsC1 rA = some rAdec := by
      show (if calculate_distance 0 0 rA.lat rA.lon > argsC1.max_distance_miles then (none : Option Resource)
          else some
            { rA with
              distance_miles := some (calculate_distance 0 0 rA.lat rA.lon),
              is_open_now := some (is_open_now rA wnow) }) = some rAdec
      rw [show calculate_distance 0 0 rA.lat rA.lon = 0 from calculate_distance_self 0 0]
      rw [if_neg (show ¬ (0:ℝ) > argsC1.max_distance_miles by
        show ¬ (0:ℝ) > (10000:ℝ)
        norm_num)]
      rfl
    have hB : processResource wnow argsC1 rB = some rBdec := by
      show (if calculate_distance 0 0 rB.lat rB.lon > argsC1.max_distance_miles then (none : Option Resource)
          else some
            { rB with
              distance_miles := some (calculate_distance 0 0 rB.lat rB.lon),
              is_open_now := some (is_open_now rB wnow) }) = some rBdec
      rw [show calculate_distance 0 0 rB.lat rB.lon = 6218.78 from calculate_distance_zero_ninety]
      rw [if_neg (show ¬ (6218.78:ℝ) > argsC1.max_distance_miles by
        show ¬ (6218.78:ℝ) > (10000:ℝ)
        norm_num)]
      rfl
    have hfil : filteredResults dbC1 wnow argsC1 = [rAdec, rBdec] := by
      unfold filteredResults dbC1
      simp only [List.filterMap_cons, List.filterMap_nil, hA, hB]
    have hkeyA : sortKey rAdec = ⊤ := by
      show (if (0:ℝ) = 0 then (⊤ : WithTop ℝ) else ((0:ℝ) : WithTop ℝ)) = ⊤
      rw [if_pos rfl]
    have hkeyB : sortKey rBdec = ((6218.78 : ℝ) : WithTop ℝ) := by
      show (if (6218.78:ℝ) = 0 then (⊤ : WithTop ℝ) else ((6218.78:ℝ) : WithTop ℝ)) = _
      rw [if_neg (by norm_num : ¬ (6218.78:ℝ) = 0)]
    have hsort : sortByKeyStable [rAdec, rBdec] = [rBdec, rAdec] := by
      show insertByKey rAdec (insertByKey rBdec []) = [rBdec, rAdec]
      rw [show insertByKey rBdec [] = [rBdec] from rfl]
      show (if sortKey rAdec ≤ sortKey rBdec then rAdec :: [rBdec]
          else rBdec :: insertByKey rAdec []) = [rBdec, rAdec]
      have hk : ¬ (sortKey rAdec ≤ sortKey rBdec) := by
        rw [hkeyA, hkeyB]
        simp
      rw [if_neg hk]
      rfl
    have hpre : preTruncation dbC1 wnow argsC1 = [rBdec, rAdec] := by
      unfold preTruncation
      rw [hfil, if_pos (show (argsC1.lat.isSome && argsC1.lon.isSome) = true from rfl)]
      exact hsort
    have hsearch : search_resources dbC1 wnow argsC1 = [rBdec, rAdec] := by
      unfold search_resources
      rw [if_pos (show (0:Int) ≤ argsC1.limit from by decide), hpre]
      rfl
    rw [hsearch]
    rfl
  · norm_num

/-- Three-resource catalog in load order a, b, c. -/
def dbC2 : ResourceDatabase :=
  ⟨[{ baseResource with id := "a" }, { baseResource with id := "b" },
    { baseResource with id := "c" }]⟩

/-- Search arguments with no query point and `limit = 2`. -/
def argsC2 : SearchArgs := { limit := 2 }

/-- Search arguments with no query point and the negative `limit = -1`. -/
def argsC2neg : SearchArgs := { limit := -1 }

/-- C2, refuted at a concrete input: with three surviving resources and
`limit = -1` (which is ≤ 0), `results[:limit]` drops only the last entry
and returns the two resources a, b — not the empty list the claim
requires for every `limit ≤ 0`. -/
theorem C2_counterexample_negative_limit :
    argsC2neg.limit ≤ 0 ∧
    (search_resources dbC2 wnow argsC2neg).map Resource.id = ["a", "b"] ∧
    (["a", "b"] : List String) ≠ [] := by
  refine ⟨by decide, ?_, by decide⟩
  rfl

/-- Witness for the amended C2 at `limit = 2` on a three-entry catalog. -/
theorem C2_limit_truncation_witness :
    (0 : Int) < argsC2.limit ∧
    search_resources dbC2 wnow argsC2 =
      (preTruncation dbC2 wnow argsC2).take argsC2.limit.toNat :=
  ⟨by decide, (C2_limit_truncation dbC2 wnow argsC2).2.1 (by decide)⟩

/-- A Monday entry with definite hours but `"variable"` status. -/
def varHours : Hours := { openTime := some "09:00", closeTime := some "17:00", status := "variable" }

/-- Resource whose Monday schedule is `"variable"`. -/
def rC3 : Resource := { baseResource with id := "c3", hours := [("monday", varHours)] }

/-- Witness for C3: a `"variable"` day entry with well-formed hours is
reported closed at Monday 10:00. -/
theorem C3_is_open_now_characterization_witness :
    lookupDay rC3.hours wnow.dayName = some varHours ∧
    (varHours.status = "closed" ∨ varHours.status = "variable") ∧
    is_open_now rC3 wnow = false :=
  ⟨rfl, Or.inr rfl,
    C3_is_open_now_characterization.2.1 rC3 wnow varHours rfl (Or.inr rfl)⟩

/-- Resource for the single-entry witness catalog. -/
def rW : Resource := { baseResource with id := "w" }

/-- Single-entry witness catalog. -/
def dbOne : ResourceDatabase := ⟨[rW]⟩

/-- Search arguments left entirely at their Python defaults. -/
def argsDefault : SearchArgs := {}

/-- The decorated copy of `rW` produced by a default search at `wnow`. -/
def rWdec : Resource := { rW with distance_miles := none, is_open_now := some false }

/-- Witness for C4 on a concrete default search whose single result is
the decorated copy of the stored record. -/
theorem C4_results_are_decorated_copies_witness :
    rWdec ∈ search_resources dbOne wnow argsDefault ∧
    ∃ r, r ∈ dbOne.resources ∧
      rWdec = { r with distance_miles := rWdec.distance_miles, is_open_now := some (is_open_now r wnow) } ∧
      rWdec.is_open_now = some (is_open_now r wnow) ∧
      (∀ la lo, argsDefault.lat = some la → argsDefault.lon = some lo →
        rWdec.distance_miles = some (calculate_distance la lo r.lat r.lon)) ∧
      ((argsDefault.lat = none ∨ argsDefault.lon = none) → rWdec.distance_miles = none) := by
  have hmem : rWdec ∈ search_resources dbOne wnow argsDefault := by
    show rWdec ∈ [rWdec]
    exact List.mem_singleton_self rWdec
  exact ⟨hmem, C4_results_are_decorated_copies dbOne wnow argsDefault rWdec hmem⟩

/-- Resource declaring vegan and halal options (mixed case). -/
def rC5 : Resource := { baseResource with id := "c5", dietary_options := ["Vegan", "halal"] }

/-- Witness for C5: the needs list ["gluten-free", "vegan"] is non-empty
and the any-of criterion is exactly the retention condition on `rC5`. -/
theorem C5_dietary_any_of_witness :
    (["gluten-free", "vegan"] : List String) ≠ [] ∧
    (dietaryExcludes (some ["gluten-free", "vegan"]) rC5 = false ↔
      ∃ need ∈ (["gluten-free", "vegan"] : List String),
        need.toLower ∈ rC5.dietary_options.map String.toLower) :=
  ⟨by decide, C5_dietary_any_of.1 ["gluten-free", "vegan"] rC5 (by decide)⟩

/-- Witness for C6 at a concrete complete query point with all other
filters passing. -/
theorem C6_distance_filter_boundary_witness :
    argsC1.lat = some (0:ℝ) ∧ argsC1.lon = some (0:ℝ) ∧
    (argsC1.open_now && !(is_open_now rW wnow)) = false ∧
    typeExcludes argsC1.resource_types rW = false ∧
    dietaryExcludes argsC1.dietary_needs rW = false ∧
    ((processResource wnow argsC1 rW).isSome = true ↔
      calculate_distance 0 0 rW.lat rW.lon ≤ argsC1.max_distance_miles) :=
  ⟨rfl, rfl, rfl, rfl, rfl,
    C6_distance_filter_boundary.1 wnow argsC1 rW 0 0 rfl rfl rfl rfl rfl⟩

/-- Search arguments supplying only a latitude. -/
def argsC9 : SearchArgs := { lat := some 0 }

/-- Witness for C9: a latitude-only search over the one-entry catalog
coincides with the default (no query point) search and carries no
distances. -/
theorem C9_partial_query_point_witness :
    ((argsC9.lat.isSome = true ∧ argsC9.lon = none) ∨
      (argsC9.lat = none ∧ argsC9.lon.isSome = true)) ∧
    (search_resources dbOne wnow argsC9 = search_resources dbOne wnow argsDefault ∧
      ∀ e ∈ search_resources dbOne wnow argsC9, e.distance_miles = none) :=
  ⟨Or.inl ⟨rfl, rfl⟩,
    C9_partial_query_point dbOne wnow argsC9 argsDefault (Or.inl ⟨rfl, rfl⟩)
      rfl rfl rfl rfl rfl rfl rfl⟩
